import Mathlib

/-!
Verification development for the monad-revm execution-layer customizations
(crates/monad-revm).  The definitions below are a shallow embedding of the
Rust sources: byte strings are `List Nat` (each element a byte value < 256),
machine integers are `Nat` with explicit `% 2^w` where overflow matters, and
storage is a total map `Nat → Nat` (a `U256` key/value store).
-/

/-! ## Byte-string helpers (big/little endian conversion) -/

/-- Big-endian value of a byte string (`u32::from_be_bytes`,
`U256::from_be_bytes`, ...). -/
def fromBe : List Nat → Nat
  | [] => 0
  | b :: t => b * 256 ^ t.length + fromBe t

/-- Little-endian value of a byte string (`u64::from_le_bytes`). -/
def fromLe (l : List Nat) : Nat := fromBe l.reverse

/-- `n`-byte big-endian encoding of `v` (truncating to the low `8*n` bits,
as the Rust fixed-width `to_be_bytes` does). -/
def natToBe : Nat → Nat → List Nat
  | 0, _ => []
  | n + 1, v => natToBe n (v / 256) ++ [v % 256]

/-- `n`-byte little-endian encoding of `v` (`u64::to_le_bytes`). -/
def natToLe (n v : Nat) : List Nat := (natToBe n v).reverse

theorem natToBe_length (n v : Nat) : (natToBe n v).length = n := by
  induction n generalizing v with
  | zero => rfl
  | succ n ih => simp [natToBe, ih]

theorem fromBe_append (A B : List Nat) :
    fromBe (A ++ B) = fromBe A * 256 ^ B.length + fromBe B := by
  induction A with
  | nil => simp [fromBe]
  | cons b t ih =>
      rw [List.cons_append, fromBe, fromBe, ih, List.length_append]
      ring

theorem fromBe_replicate_zero (n : Nat) : fromBe (List.replicate n 0) = 0 := by
  induction n with
  | zero => rfl
  | succ n ih => simp [List.replicate, fromBe, ih]

theorem fromBe_lt (l : List Nat) (h : ∀ b ∈ l, b < 256) :
    fromBe l < 256 ^ l.length := by
  induction l with
  | nil => simp [fromBe]
  | cons b t ih =>
      have hb : b < 256 := h b (List.mem_cons_self b t)
      have ht : fromBe t < 256 ^ t.length := ih fun x hx => h x (List.mem_cons_of_mem _ hx)
      simp only [fromBe, List.length_cons, pow_succ]
      calc b * 256 ^ t.length + fromBe t
          < b * 256 ^ t.length + 256 ^ t.length := by omega
        _ = (b + 1) * 256 ^ t.length := by ring
        _ ≤ 256 * 256 ^ t.length := by
            exact Nat.mul_le_mul_right _ (by omega)
        _ = 256 ^ t.length * 256 := by ring

theorem fromBe_natToBe (n v : Nat) : fromBe (natToBe n v) = v % 256 ^ n := by
  induction n generalizing v with
  | zero => simp [natToBe, fromBe, Nat.mod_one]
  | succ n ih =>
      have h : fromBe (natToBe n (v / 256) ++ [v % 256])
          = fromBe (natToBe n (v / 256)) * 256 + v % 256 := by
        rw [fromBe_append]; simp [fromBe]
      rw [natToBe, h, ih]
      have hmul : v % (256 * 256 ^ n) = v % 256 + 256 * (v / 256 % 256 ^ n) :=
        Nat.mod_mul
      have : (256 : Nat) ^ (n + 1) = 256 * 256 ^ n := by ring
      rw [this, hmul]; ring

theorem natToBe_bytes_lt (n v : Nat) : ∀ b ∈ natToBe n v, b < 256 := by
  induction n generalizing v with
  | zero => simp [natToBe]
  | succ n ih =>
      intro b hb
      simp only [natToBe, List.mem_append, List.mem_singleton] at hb
      rcases hb with hb | hb
      · exact ih _ b hb
      · omega

/-! ## Staking storage layout (crates/monad-revm/src/staking/storage.rs) -/

/-- Staking contract address `0x0000…1000` as a 20-byte string. -/
def STAKING_ADDRESS : List Nat :=
  [0, 0, 0, 0, 0, 0, 0, 0, 0, 0, 0, 0, 0, 0, 0, 0, 0, 0, 0x10, 0x00]

namespace stakingNamespace

def CONSENSUS_STAKE : Nat := 0x04
def SNAPSHOT_STAKE : Nat := 0x05
def VAL_ID_SECP : Nat := 0x06
def VAL_ID_BLS : Nat := 0x07
def VAL_BITSET : Nat := 0x08
def VAL_EXECUTION : Nat := 0x09
def ACCUMULATOR : Nat := 0x0A
def DELEGATOR : Nat := 0x0B
def WITHDRAWAL_REQUEST : Nat := 0x0C

end stakingNamespace

namespace global_slots

def EPOCH : Nat := 1
def IN_BOUNDARY : Nat := 2
def LAST_VAL_ID : Nat := 3
def PROPOSER_VAL_ID : Nat := 4

end global_slots

namespace validator_offsets

def STAKE : Nat := 0
def ACCUMULATED_REWARD_PER_TOKEN : Nat := 1
def COMMISSION : Nat := 2
def KEYS : Nat := 3
def ADDRESS_FLAGS : Nat := 6
def UNCLAIMED_REWARDS : Nat := 7

end validator_offsets

namespace delegator_offsets

def STAKE : Nat := 0
def ACCUMULATED_REWARD_PER_TOKEN : Nat := 1
def REWARDS : Nat := 2
def DELTA_STAKE : Nat := 3
def NEXT_DELTA_STAKE : Nat := 4
def EPOCHS : Nat := 5
def LIST_NODE : Nat := 6

end delegator_offsets

namespace withdrawal_offsets

def AMOUNT : Nat := 0
def ACCUMULATOR : Nat := 1
def EPOCH : Nat := 2

end withdrawal_offsets

/-- Key format: `[namespace(1)][val_id(8)][slot(1)][padding(22)]`,
read as a big-endian `U256`. -/
def validator_key (val_id slot : Nat) : Nat :=
  fromBe ([stakingNamespace.VAL_EXECUTION] ++ natToBe 8 val_id ++ [slot]
    ++ List.replicate 22 0)

/-- Key format: `[namespace(1)][val_id(8)][address(20)][slot(1)][padding(2)]`. -/
def delegator_key (val_id : Nat) (delegator : List Nat) (slot : Nat) : Nat :=
  fromBe ([stakingNamespace.DELEGATOR] ++ natToBe 8 val_id ++ delegator ++ [slot]
    ++ List.replicate 2 0)

/-- Key format:
`[namespace(1)][val_id(8)][address(20)][withdrawal_id(1)][slot(1)][padding(1)]`. -/
def withdrawal_key (val_id : Nat) (delegator : List Nat) (withdrawal_id slot : Nat) : Nat :=
  fromBe ([stakingNamespace.WITHDRAWAL_REQUEST] ++ natToBe 8 val_id ++ delegator
    ++ [withdrawal_id, slot] ++ List.replicate 1 0)

/-- Key format: `[namespace(1)][val_id(8)][slot(1)][padding(22)]`. -/
def consensus_view_key (val_id slot : Nat) : Nat :=
  fromBe ([stakingNamespace.CONSENSUS_STAKE] ++ natToBe 8 val_id ++ [slot]
    ++ List.replicate 22 0)

/-- Key format: `[namespace(1)][val_id(8)][slot(1)][padding(22)]`. -/
def snapshot_view_key (val_id slot : Nat) : Nat :=
  fromBe ([stakingNamespace.SNAPSHOT_STAKE] ++ natToBe 8 val_id ++ [slot]
    ++ List.replicate 22 0)

/-! ## ABI helpers (crates/monad-revm/src/staking/abi.rs) -/

namespace selectors

def GET_EPOCH : Nat := 0x757991a8
def GET_PROPOSER_VAL_ID : Nat := 0xfbacb0be
def GET_VALIDATOR : Nat := 0x2b6d639a
def GET_DELEGATOR : Nat := 0x573c1ce0
def GET_WITHDRAWAL_REQUEST : Nat := 0x56fa2045

end selectors

namespace stakingGas

def GET_EPOCH : Nat := 16200
def GET_PROPOSER_VAL_ID : Nat := 100
def GET_VALIDATOR : Nat := 97200
def GET_DELEGATOR : Nat := 184900
def GET_WITHDRAWAL_REQUEST : Nat := 24300

end stakingGas

/-- Decode the 4-byte big-endian function selector from the input. -/
def decode_selector (input : List Nat) : Option Nat :=
  if input.length < 4 then none else some (fromBe (input.take 4))

/-- Decode a uint64 at `offset`: 32 bytes, right-aligned, the 24 high bytes
must be zero. -/
def decode_u64 (input : List Nat) (offset : Nat) : Option Nat :=
  if input.length < offset + 32 then none
  else
    let bytes := (input.drop offset).take 32
    if (bytes.take 24).all (fun b => b == 0) then some (fromBe (bytes.drop 24))
    else none

/-- Decode a uint8 at `offset`: 32 bytes, right-aligned, the 31 high bytes
must be zero. -/
def decode_u8 (input : List Nat) (offset : Nat) : Option Nat :=
  if input.length < offset + 32 then none
  else
    let bytes := (input.drop offset).take 32
    if (bytes.take 31).all (fun b => b == 0) then some (bytes.getD 31 0)
    else none

/-- Decode an address at `offset`: 32 bytes, the 12 high bytes must be zero;
returns the 20 address bytes. -/
def decode_address (input : List Nat) (offset : Nat) : Option (List Nat) :=
  if input.length < offset + 32 then none
  else
    let bytes := (input.drop offset).take 32
    if (bytes.take 12).all (fun b => b == 0) then some (bytes.drop 12)
    else none

/-- Encode a bool to ABI format (32 bytes). -/
def encode_bool (value : Bool) : List Nat :=
  List.replicate 31 0 ++ [if value then 1 else 0]

/-- Encode a uint64 to ABI format (32 bytes, right-aligned). -/
def encode_u64 (value : Nat) : List Nat :=
  List.replicate 24 0 ++ natToBe 8 value

/-- Encode a uint256 to ABI format (32 bytes big-endian). -/
def encode_u256 (value : Nat) : List Nat := natToBe 32 value

/-- Encode an address to ABI format (12 zero bytes then the 20 address bytes). -/
def encode_address (value : List Nat) : List Nat :=
  List.replicate 12 0 ++ value

/-- Encode bytes to ABI dynamic-bytes format: length word, then data padded
with zeros to a multiple of 32 bytes. -/
def encode_bytes (value : List Nat) : List Nat :=
  encode_u256 value.length ++ value
    ++ List.replicate ((32 - value.length % 32) % 32) 0

/-- ABI-encoded output of `getEpoch()`. -/
def encode_get_epoch_result (epoch : Nat) (in_delay_period : Bool) : List Nat :=
  encode_u64 epoch ++ encode_bool in_delay_period

/-- ABI-encoded output of `getProposerValId()`. -/
def encode_get_proposer_val_id_result (val_id : Nat) : List Nat :=
  encode_u64 val_id

/-- ABI-encoded output of `getValidator()`: eight fixed words, the two
dynamic-bytes offset words, then the two dynamic-bytes entries. -/
def encode_get_validator_result (auth_address : List Nat) (flags stake : Nat)
    (accumulated_reward_per_token commission unclaimed_rewards : Nat)
    (consensus_stake snapshot_stake : Nat)
    (secp_pubkey bls_pubkey : List Nat) : List Nat :=
  encode_address auth_address
    ++ encode_u64 flags
    ++ encode_u256 stake
    ++ encode_u256 accumulated_reward_per_token
    ++ encode_u256 commission
    ++ encode_u256 unclaimed_rewards
    ++ encode_u256 consensus_stake
    ++ encode_u256 snapshot_stake
    ++ encode_u256 (10 * 32)
    ++ encode_u256 (10 * 32 + 32 + ((33 + 31) / 32) * 32)
    ++ encode_bytes secp_pubkey
    ++ encode_bytes bls_pubkey

/-- ABI-encoded output of `getDelegator()`. -/
def encode_get_delegator_result (stake accumulated_reward_per_token rewards : Nat)
    (delta_stake next_delta_stake delta_epoch next_delta_epoch : Nat) : List Nat :=
  encode_u256 stake
    ++ encode_u256 accumulated_reward_per_token
    ++ encode_u256 rewards
    ++ encode_u256 delta_stake
    ++ encode_u256 next_delta_stake
    ++ encode_u64 delta_epoch
    ++ encode_u64 next_delta_epoch

/-- ABI-encoded output of `getWithdrawalRequest()`. -/
def encode_get_withdrawal_request_result (amount accumulator epoch : Nat) : List Nat :=
  encode_u256 amount ++ encode_u256 accumulator ++ encode_u64 epoch

/-! ## Interpreter-facing types

Modelled from the spec: `Gas`, `InstructionResult` and `InterpreterResult`
live in the `revm` interpreter crate, which is part of this repository but
not under `src/`.  `Gas::new(limit)` starts with all gas remaining;
`record_cost` subtracts from the remaining gas and reports failure without
mutating when the cost exceeds it; `spent` is `limit - remaining`. -/

structure Gas where
  limit : Nat
  remaining : Nat
  refunded : Int
deriving DecidableEq, Repr

/-- Modelled from the spec: `Gas::new` (revm interpreter crate, not under
`src/`). -/
def Gas.new (limit : Nat) : Gas := ⟨limit, limit, 0⟩

/-- Modelled from the spec: `Gas::record_cost` (revm interpreter crate, not
under `src/`); `none` means the cost did not fit and the gas is unchanged. -/
def Gas.record_cost (g : Gas) (cost : Nat) : Option Gas :=
  if cost ≤ g.remaining then some { g with remaining := g.remaining - cost }
  else none

/-- Modelled from the spec: `Gas::spent` (revm interpreter crate, not under
`src/`). -/
def Gas.spent (g : Gas) : Nat := g.limit - g.remaining

/-- Modelled from the spec: `Gas::set_refund` (revm interpreter crate, not
under `src/`). -/
def Gas.set_refund (g : Gas) (refund : Int) : Gas := { g with refunded := refund }

inductive InstructionResult where
  | Return
  | PrecompileOOG
  | PrecompileError
deriving DecidableEq, Repr

structure InterpreterResult where
  result : InstructionResult
  gas : Gas
  output : List Nat
deriving DecidableEq, Repr

inductive PrecompileErr where
  | OutOfGas
  | Blake2WrongLength
  | Blake2WrongFinalIndicatorFlag
  | BlobInvalidInputLength
  | BlobMismatchedVersion
  | Other (msg : String)
deriving DecidableEq, Repr

/-- Modelled from the spec: `PrecompileError::is_oog` (revm precompile crate,
not under `src/`). -/
def PrecompileErr.is_oog : PrecompileErr → Bool
  | .OutOfGas => true
  | _ => false

/-- Modelled from the spec: gas charged to the caller for a precompile call
outcome.  Per §4.5, `PrecompileOOG` and `PrecompileError` outcomes charge the
full `gas_limit`; a `Return` outcome charges the recorded spent gas.  The
frame logic implementing this lives in the revm handler crate, not under
`src/`. -/
def consumedGas (r : InterpreterResult) : Nat :=
  match r.result with
  | .Return => r.gas.spent
  | _ => r.gas.limit

/-! ## Staking precompile (crates/monad-revm/src/staking/mod.rs, types.rs) -/

structure EpochInfo where
  epoch : Nat
  in_delay_period : Bool
deriving DecidableEq, Repr

structure ValidatorRec where
  stake : Nat
  accumulated_reward_per_token : Nat
  commission : Nat
  secp_pubkey : List Nat
  bls_pubkey : List Nat
  auth_address : List Nat
  flags : Nat
  unclaimed_rewards : Nat
deriving DecidableEq, Repr

structure DelegatorRec where
  stake : Nat
  accumulated_reward_per_token : Nat
  rewards : Nat
  delta_stake : Nat
  next_delta_stake : Nat
  delta_epoch : Nat
  next_delta_epoch : Nat
deriving DecidableEq, Repr

structure WithdrawalRequestRec where
  amount : Nat
  accumulator : Nat
  epoch : Nat
deriving DecidableEq, Repr

/-- Read a `U256` from the staking contract's storage.  The journal is
embedded as a total map, so the sload error branch
(`PrecompileError::Other("Storage read failed: ...")`) cannot occur. -/
def read_storage_u256 (store : Nat → Nat) (key : Nat) : Nat := store key

/-- Read a u64 from storage: the value is stored as a `U256`, take the low
64 bits (`as_limbs()[0]`). -/
def read_storage_u64 (store : Nat → Nat) (key : Nat) : Nat :=
  read_storage_u256 store key % 2 ^ 64

/-- Read epoch info: the epoch number from slot `EPOCH` (low 64 bits) and
the delay flag from the whole `IN_BOUNDARY` word. -/
def read_epoch_info (store : Nat → Nat) : EpochInfo :=
  { epoch := read_storage_u64 store global_slots.EPOCH
    in_delay_period := read_storage_u256 store global_slots.IN_BOUNDARY != 0 }

/-- Read a validator's 8 storage slots: stake, accumulator, commission, the
3-slot keys area (33-byte secp key then 48-byte BLS key), the packed
address+flags slot, and unclaimed rewards. -/
def read_validator (store : Nat → Nat) (val_id : Nat) : ValidatorRec :=
  let stake := read_storage_u256 store (validator_key val_id validator_offsets.STAKE)
  let arpt := read_storage_u256 store
    (validator_key val_id validator_offsets.ACCUMULATED_REWARD_PER_TOKEN)
  let commission := read_storage_u256 store
    (validator_key val_id validator_offsets.COMMISSION)
  let keys_slot_0 := natToBe 32 (read_storage_u256 store
    (validator_key val_id validator_offsets.KEYS))
  let keys_slot_1 := natToBe 32 (read_storage_u256 store
    (validator_key val_id (validator_offsets.KEYS + 1)))
  let keys_slot_2 := natToBe 32 (read_storage_u256 store
    (validator_key val_id (validator_offsets.KEYS + 2)))
  let keys_concat := keys_slot_0 ++ keys_slot_1 ++ keys_slot_2
  let secp_pubkey := keys_concat.take 33
  let bls_pubkey := (keys_concat.drop 33).take 48
  let address_flags_raw := natToBe 32 (read_storage_u256 store
    (validator_key val_id validator_offsets.ADDRESS_FLAGS))
  let auth_address := address_flags_raw.take 20
  let flags := fromBe ((address_flags_raw.drop 20).take 8)
  let unclaimed_rewards := read_storage_u256 store
    (validator_key val_id validator_offsets.UNCLAIMED_REWARDS)
  { stake, accumulated_reward_per_token := arpt, commission, secp_pubkey,
    bls_pubkey, auth_address, flags, unclaimed_rewards }

/-- Read a delegator's storage slots, including the packed epochs slot
(`delta_epoch` in bytes 0-7, `next_delta_epoch` in bytes 8-15). -/
def read_delegator (store : Nat → Nat) (val_id : Nat) (delegator_addr : List Nat) :
    DelegatorRec :=
  let stake := read_storage_u256 store
    (delegator_key val_id delegator_addr delegator_offsets.STAKE)
  let arpt := read_storage_u256 store
    (delegator_key val_id delegator_addr delegator_offsets.ACCUMULATED_REWARD_PER_TOKEN)
  let rewards := read_storage_u256 store
    (delegator_key val_id delegator_addr delegator_offsets.REWARDS)
  let delta_stake := read_storage_u256 store
    (delegator_key val_id delegator_addr delegator_offsets.DELTA_STAKE)
  let next_delta_stake := read_storage_u256 store
    (delegator_key val_id delegator_addr delegator_offsets.NEXT_DELTA_STAKE)
  let epochs_raw := natToBe 32 (read_storage_u256 store
    (delegator_key val_id delegator_addr delegator_offsets.EPOCHS))
  let delta_epoch := fromBe (epochs_raw.take 8)
  let next_delta_epoch := fromBe ((epochs_raw.drop 8).take 8)
  { stake, accumulated_reward_per_token := arpt, rewards, delta_stake,
    next_delta_stake, delta_epoch, next_delta_epoch }

/-- Read a withdrawal request: amount, accumulator, and the epoch stored as
a u64 in the first 8 bytes of its slot. -/
def read_withdrawal_request (store : Nat → Nat) (val_id : Nat)
    (delegator_addr : List Nat) (withdrawal_id : Nat) : WithdrawalRequestRec :=
  let amount := read_storage_u256 store
    (withdrawal_key val_id delegator_addr withdrawal_id withdrawal_offsets.AMOUNT)
  let accumulator := read_storage_u256 store
    (withdrawal_key val_id delegator_addr withdrawal_id withdrawal_offsets.ACCUMULATOR)
  let epoch_raw := natToBe 32 (read_storage_u256 store
    (withdrawal_key val_id delegator_addr withdrawal_id withdrawal_offsets.EPOCH))
  let epoch := fromBe (epoch_raw.take 8)
  { amount, accumulator, epoch }

/-- Handle `getEpoch() => (uint64, bool)`. -/
def handle_get_epoch (store : Nat → Nat) (_input : List Nat) (gas_limit : Nat) :
    Except PrecompileErr (Nat × List Nat) :=
  if gas_limit < stakingGas.GET_EPOCH then .error .OutOfGas
  else
    let epoch_info := read_epoch_info store
    .ok (stakingGas.GET_EPOCH,
      encode_get_epoch_result epoch_info.epoch epoch_info.in_delay_period)

/-- Handle `getProposerValId() => uint64`. -/
def handle_get_proposer_val_id (store : Nat → Nat) (_input : List Nat)
    (gas_limit : Nat) : Except PrecompileErr (Nat × List Nat) :=
  if gas_limit < stakingGas.GET_PROPOSER_VAL_ID then .error .OutOfGas
  else
    let val_id := read_storage_u64 store global_slots.PROPOSER_VAL_ID
    .ok (stakingGas.GET_PROPOSER_VAL_ID, encode_get_proposer_val_id_result val_id)

/-- Handle `getValidator(uint64 valId)`. -/
def handle_get_validator (store : Nat → Nat) (input : List Nat) (gas_limit : Nat) :
    Except PrecompileErr (Nat × List Nat) :=
  if gas_limit < stakingGas.GET_VALIDATOR then .error .OutOfGas
  else
    match decode_u64 input 4 with
    | none => .error (.Other "Invalid val_id")
    | some val_id =>
      let validator := read_validator store val_id
      let consensus_stake := read_storage_u256 store (consensus_view_key val_id 0)
      let snapshot_stake := read_storage_u256 store (snapshot_view_key val_id 0)
      .ok (stakingGas.GET_VALIDATOR,
        encode_get_validator_result validator.auth_address validator.flags
          validator.stake validator.accumulated_reward_per_token
          validator.commission validator.unclaimed_rewards
          consensus_stake snapshot_stake
          validator.secp_pubkey validator.bls_pubkey)

/-- Handle `getDelegator(uint64 valId, address delegator)`. -/
def handle_get_delegator (store : Nat → Nat) (input : List Nat) (gas_limit : Nat) :
    Except PrecompileErr (Nat × List Nat) :=
  if gas_limit < stakingGas.GET_DELEGATOR then .error .OutOfGas
  else
    match decode_u64 input 4 with
    | none => .error (.Other "Invalid val_id")
    | some val_id =>
      match decode_address input 36 with
      | none => .error (.Other "Invalid delegator address")
      | some delegator_addr =>
        let d := read_delegator store val_id delegator_addr
        .ok (stakingGas.GET_DELEGATOR,
          encode_get_delegator_result d.stake d.accumulated_reward_per_token
            d.rewards d.delta_stake d.next_delta_stake d.delta_epoch
            d.next_delta_epoch)

/-- Handle `getWithdrawalRequest(uint64 valId, address delegator, uint8 withdrawalId)`. -/
def handle_get_withdrawal_request (store : Nat → Nat) (input : List Nat)
    (gas_limit : Nat) : Except PrecompileErr (Nat × List Nat) :=
  if gas_limit < stakingGas.GET_WITHDRAWAL_REQUEST then .error .OutOfGas
  else
    match decode_u64 input 4 with
    | none => .error (.Other "Invalid val_id")
    | some val_id =>
      match decode_address input 36 with
      | none => .error (.Other "Invalid delegator address")
      | some delegator_addr =>
        match decode_u8 input 68 with
        | none => .error (.Other "Invalid withdrawal_id")
        | some withdrawal_id =>
          let r := read_withdrawal_request store val_id delegator_addr withdrawal_id
          .ok (stakingGas.GET_WITHDRAWAL_REQUEST,
            encode_get_withdrawal_request_result r.amount r.accumulator r.epoch)

/-- The `Unknown selector: {selector:#x}` message. -/
def unknownSelectorMsg (sel : Nat) : String :=
  "Unknown selector: 0x" ++ String.mk (Nat.toDigits 16 sel)

/-- Selector dispatch of `run_staking_precompile`. -/
def stakingDispatch (store : Nat → Nat) (sel : Nat) (input : List Nat)
    (gas_limit : Nat) : Except PrecompileErr (Nat × List Nat) :=
  if sel = selectors.GET_EPOCH then handle_get_epoch store input gas_limit
  else if sel = selectors.GET_PROPOSER_VAL_ID then
    handle_get_proposer_val_id store input gas_limit
  else if sel = selectors.GET_VALIDATOR then
    handle_get_validator store input gas_limit
  else if sel = selectors.GET_DELEGATOR then
    handle_get_delegator store input gas_limit
  else if sel = selectors.GET_WITHDRAWAL_REQUEST then
    handle_get_withdrawal_request store input gas_limit
  else .error (.Other (unknownSelectorMsg sel))

/-- Conversion of a handler result to an `InterpreterResult`: build a
`Return` result over a fresh `Gas`, record the handler's gas (turning the
result into `PrecompileOOG` if it does not fit), or map a handler error to
`PrecompileOOG` / `PrecompileError` with empty output. -/
def stakingFinish (gas_limit : Nat) (res : Except PrecompileErr (Nat × List Nat)) :
    InterpreterResult :=
  match res with
  | .ok (gas_used, output) =>
    let gas := Gas.new gas_limit
    match gas.record_cost gas_used with
    | some gas2 => { result := .Return, gas := gas2, output }
    | none => { result := .PrecompileOOG, gas, output }
  | .error e =>
    { result := if e.is_oog then .PrecompileOOG else .PrecompileError
      gas := Gas.new gas_limit
      output := [] }

/-- Run the staking precompile: `Except.ok none` when the callee is not the
staking address, a top-level `Except.error` (the provider-level `String`
error) when the input has no 4-byte selector, and an `InterpreterResult`
otherwise. -/
def run_staking_precompile (store : Nat → Nat) (bytecode_address : List Nat)
    (input : List Nat) (gas_limit : Nat) :
    Except String (Option InterpreterResult) :=
  if bytecode_address = STAKING_ADDRESS then
    match decode_selector input with
    | none => .error "Invalid input: missing selector"
    | some sel => .ok (some (stakingFinish gas_limit
        (stakingDispatch store sel input gas_limit)))
  else .ok none

/-! ## Monad spec id (crates/monad-revm/src/spec.rs) -/

inductive MonadSpecId where
  | MonadEight
deriving DecidableEq, Repr

/-- Stable numeric discriminant (`MonadEight = 100`). -/
def MonadSpecId.discriminant : MonadSpecId → Nat
  | .MonadEight => 100

/-- Checks if this `MonadSpecId` is enabled in the other `MonadSpecId`
(`other as u8 <= self as u8`). -/
def MonadSpecId.is_enabled_in (self other : MonadSpecId) : Bool :=
  other.discriminant ≤ self.discriminant

/-! ## Gas schedule (crates/monad-revm/src/instructions.rs) -/

/-- The gas-parameter identifiers touched by the Monad overrides, plus an
`other` constructor standing for every remaining identifier of the base
Ethereum schedule. -/
inductive GasId where
  | cold_storage_cost
  | cold_storage_additional_cost
  | cold_account_additional_cost
  | warm_storage_read_cost
  | other (n : Nat)
deriving DecidableEq, Repr

/-- A gas-parameter table: a value for every `GasId`. -/
def GasParams := GasId → Nat

/-- Modelled from the spec: `GasParams::override_gas` (revm context crate,
not under `src/`) overwrites the listed entries, leaving the rest unchanged. -/
def GasParams.override_gas (p : GasParams) (l : List (GasId × Nat)) : GasParams :=
  l.foldl (fun acc kv => fun g => if g = kv.1 then kv.2 else acc g) p

def COLD_SLOAD_COST : Nat := 8100

def COLD_ACCOUNT_ACCESS_COST : Nat := 10100

def WARM_STORAGE_READ_COST : Nat := 100

/-- Monad gas parameters: the base Ethereum schedule for the mapped hardfork
(`base`, an external collaborator, passed as a parameter) with the three
cold-access entries overwritten when `MonadEight` is enabled. -/
def monad_gas_params (base : GasParams) (spec : MonadSpecId) : GasParams :=
  if MonadSpecId.MonadEight.is_enabled_in spec then
    base.override_gas
      [(GasId.cold_storage_cost, COLD_SLOAD_COST),
       (GasId.cold_storage_additional_cost, COLD_SLOAD_COST - WARM_STORAGE_READ_COST),
       (GasId.cold_account_additional_cost,
         COLD_ACCOUNT_ACCESS_COST - WARM_STORAGE_READ_COST)]
  else base

/-! ## Monad handler (crates/monad-revm/src/handler.rs) -/

inductive InvalidTransaction where
  | Eip4844NotSupported
  | Shared (kind : String)
deriving DecidableEq, Repr

/-- Modelled from the spec: `TransactionType::from(u8)` (revm context
interface, not under `src/`); the blob type (EIP-4844) has value 3. -/
inductive TransactionType where
  | Legacy
  | Eip2930
  | Eip1559
  | Eip4844
  | Eip7702
  | Custom (n : Nat)
deriving DecidableEq, Repr

/-- Modelled from the spec: the numeric transaction-type discriminants
(EIP-4844 blob type is value 3). -/
def TransactionType.ofU8 (n : Nat) : TransactionType :=
  if n = 0 then .Legacy
  else if n = 1 then .Eip2930
  else if n = 2 then .Eip1559
  else if n = 3 then .Eip4844
  else if n = 4 then .Eip7702
  else .Custom n

/-- `MonadHandler::validate_env`: reject blob transactions, then delegate to
the shared transaction-field validator (`validation::validate_tx_env`, an
external collaborator passed as `validate_tx`); header checks are skipped. -/
def MonadHandler.validate_env (tx_type : Nat)
    (validate_tx : Except InvalidTransaction Unit) : Except InvalidTransaction Unit :=
  if TransactionType.ofU8 tx_type = TransactionType.Eip4844 then
    .error .Eip4844NotSupported
  else validate_tx

/-- `MonadHandler::refund`: unconditionally zero the refund counter on the
execution result's gas, ignoring the EIP-7702 refund argument. -/
def MonadHandler.refund (exec_result_gas : Gas) (_eip7702_refund : Int) : Gas :=
  exec_result_gas.set_refund 0

/-- The coinbase gas price of `MonadHandler::reward_beneficiary`:
`effective - basefee` (u128 `saturating_sub`, i.e. truncated `Nat`
subtraction) when London is active in the base Ethereum spec, otherwise
`effective`. -/
def coinbase_gas_price (london_active : Bool) (effective_gas_price basefee : Nat) :
    Nat :=
  if london_active then effective_gas_price - basefee else effective_gas_price

/-- The beneficiary reward of `MonadHandler::reward_beneficiary`:
`coinbase_gas_price * gas_limit` as a u128 multiplication. -/
def reward_amount (london_active : Bool) (effective_gas_price basefee gas_limit : Nat) :
    Nat :=
  coinbase_gas_price london_active effective_gas_price basefee * gas_limit % 2 ^ 128

/-- `MonadHandler::reward_beneficiary`: increment the beneficiary's balance
by the reward through the journal's `balance_incr`.  Balances are a map from
20-byte addresses to `Nat`; `gas_used` is the execution result's used gas,
which the function receives (as part of the execution result) but ignores. -/
def MonadHandler.reward_beneficiary (london_active : Bool)
    (effective_gas_price basefee gas_limit : Nat) (_gas_used : Nat)
    (beneficiary : List Nat) (balances : List Nat → Nat) : List Nat → Nat :=
  fun a =>
    if a = beneficiary then
      balances a + reward_amount london_active effective_gas_price basefee gas_limit
    else balances a

/-! ## Repriced precompiles (crates/monad-revm/src/precompiles.rs) -/

structure PrecompileOutput where
  gas_used : Nat
  bytes : List Nat
deriving DecidableEq, Repr

def MONAD_ECRECOVER_GAS : Nat := 6000

def MONAD_EC_ADD_GAS : Nat := 300

def MONAD_EC_MUL_GAS : Nat := 30000

def MONAD_EC_PAIRING_BASE_GAS : Nat := 225000

def MONAD_EC_PAIRING_PER_POINT_GAS : Nat := 170000

def MONAD_BLAKE2F_ROUND_GAS : Nat := 2

def MONAD_POINT_EVALUATION_GAS : Nat := 200000

/-- `right_pad::<N>`: the first `N` input bytes, zero-padded on the right to
exactly `N` bytes. -/
def rightPad (n : Nat) (l : List Nat) : List Nat :=
  l.take n ++ List.replicate (n - l.length) 0

/-- `monad_ecrecover_run`: charge 6000 gas (out-of-gas if over the limit),
right-pad the input to 128 bytes, check `v` is a 32-byte big-endian 27 or 28
(returning empty output at full base gas otherwise), then recover through the
external secp256k1 primitive `ec` (signature, recovery id, message hash). -/
def monad_ecrecover_run (ec : List Nat → Nat → List Nat → Option (List Nat))
    (input : List Nat) (gas_limit : Nat) : Except PrecompileErr PrecompileOutput :=
  if MONAD_ECRECOVER_GAS > gas_limit then .error .OutOfGas
  else
    let inp := rightPad 128 input
    if ((inp.drop 32).take 31).all (fun b => b == 0)
        && (inp.getD 63 0 == 27 || inp.getD 63 0 == 28) then
      let res := ec (inp.drop 64) (inp.getD 63 0 - 27) (inp.take 32)
      .ok ⟨MONAD_ECRECOVER_GAS, res.getD []⟩
    else .ok ⟨MONAD_ECRECOVER_GAS, []⟩

/-- Modelled from the spec: `bn254::run_add` / `run_mul` (revm precompile
crate, not under `src/`) charge the given constant gas, signalling out-of-gas
when it exceeds the gas limit, and otherwise run the curve operation
(abstracted as `op`, which may fail with an input-validation error). -/
def bn254_run_const (op : Except PrecompileErr (List Nat)) (const_gas gas_limit : Nat) :
    Except PrecompileErr PrecompileOutput :=
  if const_gas > gas_limit then .error .OutOfGas
  else
    match op with
    | .error e => .error e
    | .ok out => .ok ⟨const_gas, out⟩

/-- Modelled from the spec: `bn254::run_pair` (revm precompile crate, not
under `src/`) charges `base + per_pair * (len / 192)` gas, signalling
out-of-gas when that exceeds the limit, requires the input length to be a
multiple of 192, and otherwise runs the pairing (abstracted as `op`). -/
def bn254_run_pair (op : Except PrecompileErr (List Nat))
    (per_pair base gas_limit input_len : Nat) : Except PrecompileErr PrecompileOutput :=
  let pairs := input_len / 192
  let gas := base + per_pair * pairs
  if gas > gas_limit then .error .OutOfGas
  else if input_len % 192 ≠ 0 then .error (.Other "invalid pairing input length")
  else
    match op with
    | .error e => .error e
    | .ok out => .ok ⟨gas, out⟩

/-- `monad_ec_add_run`: bn254 addition at the Monad constant gas. -/
def monad_ec_add_run (op : List Nat → Except PrecompileErr (List Nat))
    (input : List Nat) (gas_limit : Nat) : Except PrecompileErr PrecompileOutput :=
  bn254_run_const (op input) MONAD_EC_ADD_GAS gas_limit

/-- `monad_ec_mul_run`: bn254 multiplication at the Monad constant gas. -/
def monad_ec_mul_run (op : List Nat → Except PrecompileErr (List Nat))
    (input : List Nat) (gas_limit : Nat) : Except PrecompileErr PrecompileOutput :=
  bn254_run_const (op input) MONAD_EC_MUL_GAS gas_limit

/-- `monad_ec_pairing_run`: bn254 pairing at the Monad base and per-point
gas. -/
def monad_ec_pairing_run (op : List Nat → Except PrecompileErr (List Nat))
    (input : List Nat) (gas_limit : Nat) : Except PrecompileErr PrecompileOutput :=
  bn254_run_pair (op input) MONAD_EC_PAIRING_PER_POINT_GAS
    MONAD_EC_PAIRING_BASE_GAS gas_limit input.length

/-- Parse `n` little-endian u64 words from a byte string. -/
def leWords : Nat → List Nat → List Nat
  | 0, _ => []
  | n + 1, l => fromLe (l.take 8) :: leWords n (l.drop 8)

/-- `monad_blake2f_run`: input must be exactly 213 bytes; gas is
`rounds * 2` (out-of-gas if over the limit); the final-block flag byte must
be 0 or 1; the compression itself is the external `compress` primitive
(rounds, state h, message m, offset counters, flag). -/
def monad_blake2f_run
    (compress : Nat → List Nat → List Nat → List Nat → Bool → List Nat)
    (input : List Nat) (gas_limit : Nat) : Except PrecompileErr PrecompileOutput :=
  if input.length ≠ 213 then .error .Blake2WrongLength
  else
    let rounds := fromBe (input.take 4)
    let gas_used := rounds * MONAD_BLAKE2F_ROUND_GAS
    if gas_used > gas_limit then .error .OutOfGas
    else if input.getD 212 0 = 0 ∨ input.getD 212 0 = 1 then
      let f := input.getD 212 0 = 1
      let h := leWords 8 ((input.drop 4).take 64)
      let m := leWords 16 ((input.drop 68).take 128)
      let t0 := fromLe ((input.drop 196).take 8)
      let t1 := fromLe ((input.drop 204).take 8)
      let h2 := compress rounds h m [t0, t1] f
      .ok ⟨gas_used, ((h2.take 8).map (natToLe 8)).flatten⟩
    else .error .Blake2WrongFinalIndicatorFlag

/-- `monad_point_evaluation_run`: charge 200000 gas (out-of-gas if over the
limit); input must be 192 bytes; the commitment (bytes 96-143) must map to
the versioned hash (bytes 0-31) under the external `kzgHash` rule; then the
external proof verification `verify z y commitment proof` runs and on
success the canonical 64-byte `return_value` constant is returned. -/
def monad_point_evaluation_run (kzgHash : List Nat → List Nat)
    (verify : List Nat → List Nat → List Nat → List Nat → Except PrecompileErr Unit)
    (return_value : List Nat) (input : List Nat) (gas_limit : Nat) :
    Except PrecompileErr PrecompileOutput :=
  if gas_limit < MONAD_POINT_EVALUATION_GAS then .error .OutOfGas
  else if input.length ≠ 192 then .error .BlobInvalidInputLength
  else if kzgHash ((input.drop 96).take 48) ≠ input.take 32 then
    .error .BlobMismatchedVersion
  else
    match verify ((input.drop 32).take 32) ((input.drop 64).take 32)
        ((input.drop 96).take 48) ((input.drop 144).take 48) with
    | .error e => .error e
    | .ok _ => .ok ⟨MONAD_POINT_EVALUATION_GAS, return_value⟩

/-! ## C1: reward_beneficiary charges gas_limit at the coinbase gas price -/

/-- **C1.** For every transaction, the `reward_beneficiary` step increments
the beneficiary's balance by exactly `coinbase_gas_price * gas_limit`, where
`coinbase_gas_price` is `effective_gas_price - basefee` (saturating at zero)
when London is active in the base Ethereum spec and `effective_gas_price`
otherwise; no other balance changes, and `gas_used` has no effect on the
amount.  The hypothesis rules out u128 overflow of the reward
multiplication. -/
theorem reward_beneficiary_increments_by_price_times_gas_limit
    (london_active : Bool) (effective_gas_price basefee gas_limit : Nat)
    (gas_used gas_used2 : Nat) (beneficiary : List Nat) (balances : List Nat → Nat)
    (hno : coinbase_gas_price london_active effective_gas_price basefee * gas_limit
      < 2 ^ 128) :
    MonadHandler.reward_beneficiary london_active effective_gas_price basefee
        gas_limit gas_used beneficiary balances beneficiary
      = balances beneficiary
        + coinbase_gas_price london_active effective_gas_price basefee * gas_limit
    ∧ (∀ a, a ≠ beneficiary →
        MonadHandler.reward_beneficiary london_active effective_gas_price basefee
          gas_limit gas_used beneficiary balances a = balances a)
    ∧ MonadHandler.reward_beneficiary london_active effective_gas_price basefee
        gas_limit gas_used beneficiary balances
      = MonadHandler.reward_beneficiary london_active effective_gas_price basefee
        gas_limit gas_used2 beneficiary balances
    ∧ (london_active = true →
        coinbase_gas_price london_active effective_gas_price basefee
          = effective_gas_price - basefee)
    ∧ (london_active = false →
        coinbase_gas_price london_active effective_gas_price basefee
          = effective_gas_price) := by
  refine ⟨?_, ?_, rfl, ?_, ?_⟩
  · simp [MonadHandler.reward_beneficiary, reward_amount, Nat.mod_eq_of_lt hno]
    exact hno.trans_le (by norm_num)
  · intro a ha
    simp only [MonadHandler.reward_beneficiary, if_neg ha]
  · intro h; simp [coinbase_gas_price, h]
  · intro h; simp [coinbase_gas_price, h]

/-- Witness for C1 at London-active, `effective = 10`, `basefee = 3`,
`gas_limit = 5`, `gas_used = 21000`. -/
theorem reward_beneficiary_increments_witness :
    coinbase_gas_price true 10 3 * 5 < 2 ^ 128
    ∧ MonadHandler.reward_beneficiary true 10 3 5 21000 [1] (fun _ => 100) [1]
        = (fun _ : List Nat => 100) [1] + coinbase_gas_price true 10 3 * 5 :=
  ⟨by norm_num [coinbase_gas_price],
   (reward_beneficiary_increments_by_price_times_gas_limit true 10 3 5 21000 0 [1]
     (fun _ => 100) (by norm_num [coinbase_gas_price])).1⟩

/-! ## C2: the refund step zeroes the refund counter -/

/-- **C2.** For every execution outcome and every EIP-7702 refund argument,
`MonadHandler::refund` sets the refund counter on the result's gas to zero
and changes nothing else: the reported refund counter is exactly 0 and no
EIP-3529/7702 reduction logic is applied. -/
theorem refund_counter_always_zero (g : Gas) (eip7702_refund : Int) :
    (MonadHandler.refund g eip7702_refund).refunded = 0
    ∧ MonadHandler.refund g eip7702_refund = { g with refunded := 0 } :=
  ⟨rfl, rfl⟩

/-! ## C3: blob transactions are rejected before any other validation -/

/-- **C3.** For every transaction whose type discriminant is 3 (the EIP-4844
blob type), `validate_env` fails with `Eip4844NotSupported` no matter what
the shared transaction-field validator would return, so no other validation
step runs and no state mutation is visible (the rejection is produced before
the delegation point). -/
theorem validate_env_rejects_blob_tx (tx_type : Nat)
    (validate_tx : Except InvalidTransaction Unit) (h : tx_type = 3) :
    MonadHandler.validate_env tx_type validate_tx
      = .error InvalidTransaction.Eip4844NotSupported := by
  subst h; rfl

/-- Witness for C3: a blob transaction is rejected both when the shared
validator would succeed and when it would fail differently. -/
theorem validate_env_rejects_blob_tx_witness :
    (3 : Nat) = 3
    ∧ MonadHandler.validate_env 3 (.ok ())
        = .error InvalidTransaction.Eip4844NotSupported
    ∧ MonadHandler.validate_env 3 (.error (.Shared "nonce too low"))
        = .error InvalidTransaction.Eip4844NotSupported :=
  ⟨rfl, validate_env_rejects_blob_tx 3 (.ok ()) rfl,
    validate_env_rejects_blob_tx 3 (.error (.Shared "nonce too low")) rfl⟩

/-! ## C5: the MonadEight gas-parameter table -/

/-- **C5.** For the hardfork MonadEight, `monad_gas_params` yields
`cold_storage_cost = 8100`, `cold_storage_additional_cost = 8000`,
`cold_account_additional_cost = 10000`, `warm_storage_read_cost = 100`
(inherited from the base Ethereum schedule, whose warm read cost is 100),
and every other entry equal to the base Ethereum schedule. -/
theorem monad_gas_params_monad_eight (base : GasParams)
    (hwarm : base GasId.warm_storage_read_cost = 100) :
    monad_gas_params base .MonadEight GasId.cold_storage_cost = 8100
    ∧ monad_gas_params base .MonadEight GasId.cold_storage_additional_cost = 8000
    ∧ monad_gas_params base .MonadEight GasId.cold_account_additional_cost = 10000
    ∧ monad_gas_params base .MonadEight GasId.warm_storage_read_cost = 100
    ∧ ∀ g : GasId, g ≠ GasId.cold_storage_cost
        → g ≠ GasId.cold_storage_additional_cost
        → g ≠ GasId.cold_account_additional_cost
        → monad_gas_params base .MonadEight g = base g := by
  refine ⟨?_, ?_, ?_, ?_, ?_⟩
  · simp [monad_gas_params, GasParams.override_gas, MonadSpecId.is_enabled_in,
      MonadSpecId.discriminant, COLD_SLOAD_COST]
  · simp [monad_gas_params, GasParams.override_gas, MonadSpecId.is_enabled_in,
      MonadSpecId.discriminant, COLD_SLOAD_COST, WARM_STORAGE_READ_COST]
  · simp [monad_gas_params, GasParams.override_gas, MonadSpecId.is_enabled_in,
      MonadSpecId.discriminant, COLD_ACCOUNT_ACCESS_COST, WARM_STORAGE_READ_COST]
  · simpa [monad_gas_params, GasParams.override_gas, MonadSpecId.is_enabled_in,
      MonadSpecId.discriminant] using hwarm
  · intro g h1 h2 h3
    simp [monad_gas_params, GasParams.override_gas, MonadSpecId.is_enabled_in,
      MonadSpecId.discriminant, h1, h2, h3]

/-- Witness for C5 with a base schedule whose warm read cost is 100. -/
theorem monad_gas_params_monad_eight_witness :
    (fun g => if g = GasId.warm_storage_read_cost then 100 else 7 : GasParams)
        GasId.warm_storage_read_cost = 100
    ∧ monad_gas_params
        (fun g => if g = GasId.warm_storage_read_cost then 100 else 7) .MonadEight
        GasId.cold_storage_cost = 8100
    ∧ monad_gas_params
        (fun g => if g = GasId.warm_storage_read_cost then 100 else 7) .MonadEight
        GasId.cold_storage_additional_cost = 8000
    ∧ monad_gas_params
        (fun g => if g = GasId.warm_storage_read_cost then 100 else 7) .MonadEight
        GasId.cold_account_additional_cost = 10000
    ∧ monad_gas_params
        (fun g => if g = GasId.warm_storage_read_cost then 100 else 7) .MonadEight
        GasId.warm_storage_read_cost = 100
    ∧ monad_gas_params
        (fun g => if g = GasId.warm_storage_read_cost then 100 else 7) .MonadEight
        (GasId.other 5)
      = (fun g => if g = GasId.warm_storage_read_cost then 100 else 7 : GasParams)
        (GasId.other 5) := by
  have h := monad_gas_params_monad_eight
    (fun g => if g = GasId.warm_storage_read_cost then 100 else 7) rfl
  exact ⟨rfl, h.1, h.2.1, h.2.2.1, h.2.2.2.1,
    h.2.2.2.2 (GasId.other 5) (by decide) (by decide) (by decide)⟩

/-! ## C4: getValidator return layout -/

theorem encode_u256_length (v : Nat) : (encode_u256 v).length = 32 := by
  simp [encode_u256, natToBe_length]

theorem encode_u64_length (v : Nat) : (encode_u64 v).length = 32 := by
  simp [encode_u64, natToBe_length]

theorem encode_bool_length (b : Bool) : (encode_bool b).length = 32 := by
  simp [encode_bool]

theorem encode_address_length (a : List Nat) (h : a.length = 20) :
    (encode_address a).length = 32 := by
  simp [encode_address, h]

/-- **C4 (counterexample).** At an all-zero validator record the second
dynamic offset word of `encode_get_validator_result` (bytes 288..320) is the
encoding of 416, not of 384: the claim's value 384 is wrong. -/
theorem get_validator_second_offset_not_384 :
    ((encode_get_validator_result (List.replicate 20 0) 0 0 0 0 0 0 0
        (List.replicate 33 0) (List.replicate 48 0)).drop 288).take 32
      = encode_u256 416
    ∧ encode_u256 416 ≠ encode_u256 384 := by
  constructor
  · decide
  · decide

/-- **C4 (amended).** For every validator record, `getValidator` output is
ten 32-byte fixed fields in order (auth_address, flags, stake,
accumulated_reward_per_token, commission, unclaimed_rewards,
consensus_stake, snapshot_stake, offset of the secp pubkey bytes, offset of
the BLS pubkey bytes) followed by the two dynamic-bytes entries encoded as
length, data, then zero padding to a 32-byte multiple; the first dynamic
offset word is `10 * 32 = 320` and the second is
`320 + 32 + ((33 + 31) / 32) * 32 = 416`. -/
theorem encode_get_validator_result_layout (auth_address : List Nat)
    (flags stake arpt commission unclaimed cons snap : Nat) (secp bls : List Nat)
    (hauth : auth_address.length = 20) (hsecp : secp.length = 33)
    (hbls : bls.length = 48) :
    encode_get_validator_result auth_address flags stake arpt commission
        unclaimed cons snap secp bls
      = encode_address auth_address ++ encode_u64 flags ++ encode_u256 stake
        ++ encode_u256 arpt ++ encode_u256 commission ++ encode_u256 unclaimed
        ++ encode_u256 cons ++ encode_u256 snap ++ encode_u256 320
        ++ encode_u256 416 ++ encode_bytes secp ++ encode_bytes bls
    ∧ encode_bytes secp = encode_u256 33 ++ secp ++ List.replicate 31 0
    ∧ encode_bytes bls = encode_u256 48 ++ bls ++ List.replicate 16 0
    ∧ (encode_address auth_address).length = 32
    ∧ (encode_u64 flags).length = 32
    ∧ (encode_u256 stake).length = 32
    ∧ (encode_u256 arpt).length = 32
    ∧ (encode_u256 commission).length = 32
    ∧ (encode_u256 unclaimed).length = 32
    ∧ (encode_u256 cons).length = 32
    ∧ (encode_u256 snap).length = 32
    ∧ (encode_u256 320).length = 32
    ∧ (encode_u256 416).length = 32
    ∧ (encode_bytes secp).length = 96
    ∧ (encode_bytes bls).length = 96
    ∧ (encode_get_validator_result auth_address flags stake arpt commission
        unclaimed cons snap secp bls).length = 512 := by
  have hsecpe : encode_bytes secp = encode_u256 33 ++ secp ++ List.replicate 31 0 := by
    rw [encode_bytes, hsecp]
  have hblse : encode_bytes bls = encode_u256 48 ++ bls ++ List.replicate 16 0 := by
    rw [encode_bytes, hbls]
  refine ⟨?_, hsecpe, hblse, encode_address_length _ hauth, encode_u64_length _,
    encode_u256_length _, encode_u256_length _, encode_u256_length _,
    encode_u256_length _, encode_u256_length _, encode_u256_length _,
    encode_u256_length _, encode_u256_length _, ?_, ?_, ?_⟩
  · rfl
  · rw [hsecpe]; simp [encode_u256_length, hsecp]
  · rw [hblse]; simp [encode_u256_length, hbls]
  · simp [encode_get_validator_result, encode_address, encode_u64, encode_u256,
      encode_bytes, natToBe_length, hauth, hsecp, hbls]

/-- Witness for the amended C4 at an all-zero validator record. -/
theorem encode_get_validator_result_layout_witness :
    (List.replicate 20 0 : List Nat).length = 20
    ∧ (List.replicate 33 0 : List Nat).length = 33
    ∧ (List.replicate 48 0 : List Nat).length = 48
    ∧ encode_get_validator_result (List.replicate 20 0) 0 0 0 0 0 0 0
        (List.replicate 33 0) (List.replicate 48 0)
      = encode_address (List.replicate 20 0) ++ encode_u64 0 ++ encode_u256 0
        ++ encode_u256 0 ++ encode_u256 0 ++ encode_u256 0 ++ encode_u256 0
        ++ encode_u256 0 ++ encode_u256 320 ++ encode_u256 416
        ++ encode_bytes (List.replicate 33 0) ++ encode_bytes (List.replicate 48 0)
    ∧ (encode_get_validator_result (List.replicate 20 0) 0 0 0 0 0 0 0
        (List.replicate 33 0) (List.replicate 48 0)).length = 512 := by
  have h := encode_get_validator_result_layout (List.replicate 20 0) 0 0 0 0 0 0 0
    (List.replicate 33 0) (List.replicate 48 0) (by decide) (by decide) (by decide)
  exact ⟨by decide, by decide, by decide, h.1, h.2.2.2.2.2.2.2.2.2.2.2.2.2.2.2⟩

/-! ## C7: fixed gas charging of the staking handlers -/

theorem run_staking_on_selector (store : Nat → Nat) (input : List Nat)
    (g sel : Nat) (h : decode_selector input = some sel) :
    run_staking_precompile store STAKING_ADDRESS input g
      = .ok (some (stakingFinish g (stakingDispatch store sel input g))) := by
  simp [run_staking_precompile, h]

theorem stakingFinish_return_spent (g : Nat)
    (res : Except PrecompileErr (Nat × List Nat)) (r : InterpreterResult)
    (h : stakingFinish g res = r) (hr : r.result = .Return) :
    ∃ c o, res = .ok (c, o) ∧ c ≤ g ∧ consumedGas r = c := by
  match res with
  | .error e =>
    exfalso
    cases he : e.is_oog <;> · subst h; simp [stakingFinish, he] at hr
  | .ok (c, o) =>
    refine ⟨c, o, rfl, ?_, ?_⟩ <;>
    · by_cases hc : c ≤ g
      · first
        | exact hc
        | · subst h
            simp [stakingFinish, Gas.record_cost, Gas.new, hc, consumedGas,
              Gas.spent]
            omega
      · exfalso
        subst h
        simp [stakingFinish, Gas.record_cost, Gas.new, hc] at hr

theorem handle_get_epoch_cost (store : Nat → Nat) (input : List Nat)
    (g c : Nat) (o : List Nat) (h : handle_get_epoch store input g = .ok (c, o)) :
    c = stakingGas.GET_EPOCH := by
  unfold handle_get_epoch at h
  split at h
  · simp at h
  · simp only [Except.ok.injEq, Prod.mk.injEq] at h
    exact h.1.symm

theorem handle_get_proposer_val_id_cost (store : Nat → Nat) (input : List Nat)
    (g c : Nat) (o : List Nat)
    (h : handle_get_proposer_val_id store input g = .ok (c, o)) :
    c = stakingGas.GET_PROPOSER_VAL_ID := by
  unfold handle_get_proposer_val_id at h
  split at h
  · simp at h
  · simp only [Except.ok.injEq, Prod.mk.injEq] at h
    exact h.1.symm

theorem handle_get_validator_cost (store : Nat → Nat) (input : List Nat)
    (g c : Nat) (o : List Nat) (h : handle_get_validator store input g = .ok (c, o)) :
    c = stakingGas.GET_VALIDATOR := by
  unfold handle_get_validator at h
  split at h
  · simp at h
  · split at h
    · simp at h
    · simp only [Except.ok.injEq, Prod.mk.injEq] at h
      exact h.1.symm

theorem handle_get_delegator_cost (store : Nat → Nat) (input : List Nat)
    (g c : Nat) (o : List Nat) (h : handle_get_delegator store input g = .ok (c, o)) :
    c = stakingGas.GET_DELEGATOR := by
  unfold handle_get_delegator at h
  split at h
  · simp at h
  · split at h
    · simp at h
    · split at h
      · simp at h
      · simp only [Except.ok.injEq, Prod.mk.injEq] at h
        exact h.1.symm

theorem handle_get_withdrawal_request_cost (store : Nat → Nat) (input : List Nat)
    (g c : Nat) (o : List Nat)
    (h : handle_get_withdrawal_request store input g = .ok (c, o)) :
    c = stakingGas.GET_WITHDRAWAL_REQUEST := by
  unfold handle_get_withdrawal_request at h
  split at h
  · simp at h
  · split at h
    · simp at h
    · split at h
      · simp at h
      · split at h
        · simp at h
        · simp only [Except.ok.injEq, Prod.mk.injEq] at h
          exact h.1.symm

theorem stakingDispatch_get_epoch (store : Nat → Nat) (input : List Nat) (g : Nat) :
    stakingDispatch store selectors.GET_EPOCH input g
      = handle_get_epoch store input g := by
  simp [stakingDispatch, selectors.GET_EPOCH]

theorem stakingDispatch_get_proposer_val_id (store : Nat → Nat) (input : List Nat)
    (g : Nat) :
    stakingDispatch store selectors.GET_PROPOSER_VAL_ID input g
      = handle_get_proposer_val_id store input g := by
  simp [stakingDispatch, selectors.GET_EPOCH, selectors.GET_PROPOSER_VAL_ID]

theorem stakingDispatch_get_validator (store : Nat → Nat) (input : List Nat)
    (g : Nat) :
    stakingDispatch store selectors.GET_VALIDATOR input g
      = handle_get_validator store input g := by
  simp [stakingDispatch, selectors.GET_EPOCH, selectors.GET_PROPOSER_VAL_ID,
    selectors.GET_VALIDATOR]

theorem stakingDispatch_get_delegator (store : Nat → Nat) (input : List Nat)
    (g : Nat) :
    stakingDispatch store selectors.GET_DELEGATOR input g
      = handle_get_delegator store input g := by
  simp [stakingDispatch, selectors.GET_EPOCH, selectors.GET_PROPOSER_VAL_ID,
    selectors.GET_VALIDATOR, selectors.GET_DELEGATOR]

theorem stakingDispatch_get_withdrawal_request (store : Nat → Nat)
    (input : List Nat) (g : Nat) :
    stakingDispatch store selectors.GET_WITHDRAWAL_REQUEST input g
      = handle_get_withdrawal_request store input g := by
  simp [stakingDispatch, selectors.GET_EPOCH, selectors.GET_PROPOSER_VAL_ID,
    selectors.GET_VALIDATOR, selectors.GET_DELEGATOR,
    selectors.GET_WITHDRAWAL_REQUEST]

/-- **C7.** For every supported staking selector, the handler first compares
its fixed gas cost (`getEpoch` 16200, `getProposerValId` 100, `getValidator`
97200, `getDelegator` 184900, `getWithdrawalRequest` 24300) against the
call's `gas_limit`: when the limit is smaller the call yields a
`PrecompileOOG` outcome consuming the full `gas_limit`; on a successful
(`Return`) outcome exactly the fixed gas is consumed, with no per-byte fee. -/
theorem staking_fixed_gas_charging (store : Nat → Nat) (input : List Nat)
    (g : Nat) :
    (decode_selector input = some selectors.GET_EPOCH →
      (g < stakingGas.GET_EPOCH →
        run_staking_precompile store STAKING_ADDRESS input g
          = .ok (some ⟨.PrecompileOOG, Gas.new g, []⟩)
        ∧ consumedGas ⟨.PrecompileOOG, Gas.new g, []⟩ = g)
      ∧ ∀ r, run_staking_precompile store STAKING_ADDRESS input g = .ok (some r)
          → r.result = .Return → consumedGas r = stakingGas.GET_EPOCH)
    ∧ (decode_selector input = some selectors.GET_PROPOSER_VAL_ID →
      (g < stakingGas.GET_PROPOSER_VAL_ID →
        run_staking_precompile store STAKING_ADDRESS input g
          = .ok (some ⟨.PrecompileOOG, Gas.new g, []⟩)
        ∧ consumedGas ⟨.PrecompileOOG, Gas.new g, []⟩ = g)
      ∧ ∀ r, run_staking_precompile store STAKING_ADDRESS input g = .ok (some r)
          → r.result = .Return → consumedGas r = stakingGas.GET_PROPOSER_VAL_ID)
    ∧ (decode_selector input = some selectors.GET_VALIDATOR →
      (g < stakingGas.GET_VALIDATOR →
        run_staking_precompile store STAKING_ADDRESS input g
          = .ok (some ⟨.PrecompileOOG, Gas.new g, []⟩)
        ∧ consumedGas ⟨.PrecompileOOG, Gas.new g, []⟩ = g)
      ∧ ∀ r, run_staking_precompile store STAKING_ADDRESS input g = .ok (some r)
          → r.result = .Return → consumedGas r = stakingGas.GET_VALIDATOR)
    ∧ (decode_selector input = some selectors.GET_DELEGATOR →
      (g < stakingGas.GET_DELEGATOR →
        run_staking_precompile store STAKING_ADDRESS input g
          = .ok (some ⟨.PrecompileOOG, Gas.new g, []⟩)
        ∧ consumedGas ⟨.PrecompileOOG, Gas.new g, []⟩ = g)
      ∧ ∀ r, run_staking_precompile store STAKING_ADDRESS input g = .ok (some r)
          → r.result = .Return → consumedGas r = stakingGas.GET_DELEGATOR)
    ∧ (decode_selector input = some selectors.GET_WITHDRAWAL_REQUEST →
      (g < stakingGas.GET_WITHDRAWAL_REQUEST →
        run_staking_precompile store STAKING_ADDRESS input g
          = .ok (some ⟨.PrecompileOOG, Gas.new g, []⟩)
        ∧ consumedGas ⟨.PrecompileOOG, Gas.new g, []⟩ = g)
      ∧ ∀ r, run_staking_precompile store STAKING_ADDRESS input g = .ok (some r)
          → r.result = .Return → consumedGas r = stakingGas.GET_WITHDRAWAL_REQUEST) := by
  refine ⟨fun hsel => ⟨fun hg => ?_, fun r hr hret => ?_⟩,
    fun hsel => ⟨fun hg => ?_, fun r hr hret => ?_⟩,
    fun hsel => ⟨fun hg => ?_, fun r hr hret => ?_⟩,
    fun hsel => ⟨fun hg => ?_, fun r hr hret => ?_⟩,
    fun hsel => ⟨fun hg => ?_, fun r hr hret => ?_⟩⟩
  · rw [run_staking_on_selector store input g _ hsel, stakingDispatch_get_epoch]
    unfold handle_get_epoch
    rw [if_pos hg]
    exact ⟨rfl, rfl⟩
  · rw [run_staking_on_selector store input g _ hsel,
      stakingDispatch_get_epoch] at hr
    simp only [Except.ok.injEq, Option.some.injEq] at hr
    obtain ⟨c, o, hres, _, hcons⟩ := stakingFinish_return_spent g _ r hr hret
    rw [hcons, handle_get_epoch_cost store input g c o hres]
  · rw [run_staking_on_selector store input g _ hsel,
      stakingDispatch_get_proposer_val_id]
    unfold handle_get_proposer_val_id
    rw [if_pos hg]
    exact ⟨rfl, rfl⟩
  · rw [run_staking_on_selector store input g _ hsel,
      stakingDispatch_get_proposer_val_id] at hr
    simp only [Except.ok.injEq, Option.some.injEq] at hr
    obtain ⟨c, o, hres, _, hcons⟩ := stakingFinish_return_spent g _ r hr hret
    rw [hcons, handle_get_proposer_val_id_cost store input g c o hres]
  · rw [run_staking_on_selector store input g _ hsel,
      stakingDispatch_get_validator]
    unfold handle_get_validator
    rw [if_pos hg]
    exact ⟨rfl, rfl⟩
  · rw [run_staking_on_selector store input g _ hsel,
      stakingDispatch_get_validator] at hr
    simp only [Except.ok.injEq, Option.some.injEq] at hr
    obtain ⟨c, o, hres, _, hcons⟩ := stakingFinish_return_spent g _ r hr hret
    rw [hcons, handle_get_validator_cost store input g c o hres]
  · rw [run_staking_on_selector store input g _ hsel,
      stakingDispatch_get_delegator]
    unfold handle_get_delegator
    rw [if_pos hg]
    exact ⟨rfl, rfl⟩
  · rw [run_staking_on_selector store input g _ hsel,
      stakingDispatch_get_delegator] at hr
    simp only [Except.ok.injEq, Option.some.injEq] at hr
    obtain ⟨c, o, hres, _, hcons⟩ := stakingFinish_return_spent g _ r hr hret
    rw [hcons, handle_get_delegator_cost store input g c o hres]
  · rw [run_staking_on_selector store input g _ hsel,
      stakingDispatch_get_withdrawal_request]
    unfold handle_get_withdrawal_request
    rw [if_pos hg]
    exact ⟨rfl, rfl⟩
  · rw [run_staking_on_selector store input g _ hsel,
      stakingDispatch_get_withdrawal_request] at hr
    simp only [Except.ok.injEq, Option.some.injEq] at hr
    obtain ⟨c, o, hres, _, hcons⟩ := stakingFinish_return_spent g _ r hr hret
    rw [hcons, handle_get_withdrawal_request_cost store input g c o hres]

/-- Witness for C7: scenario S9 (`getDelegator` at `gas_limit = 100000`
yields `PrecompileOOG` with the whole limit consumed) and a successful
`getEpoch` at `gas_limit = 16200` consuming exactly 16200. -/
theorem staking_fixed_gas_charging_witness :
    decode_selector [0x57, 0x3c, 0x1c, 0xe0] = some selectors.GET_DELEGATOR
    ∧ (100000 : Nat) < stakingGas.GET_DELEGATOR
    ∧ run_staking_precompile (fun _ => 0) STAKING_ADDRESS
        [0x57, 0x3c, 0x1c, 0xe0] 100000
      = .ok (some ⟨.PrecompileOOG, Gas.new 100000, []⟩)
    ∧ consumedGas ⟨.PrecompileOOG, Gas.new 100000, []⟩ = 100000
    ∧ run_staking_precompile (fun _ => 0) STAKING_ADDRESS
        [0x75, 0x79, 0x91, 0xa8] 16200
      = .ok (some ⟨.Return, ⟨16200, 0, 0⟩, encode_get_epoch_result 0 false⟩)
    ∧ consumedGas ⟨.Return, ⟨16200, 0, 0⟩, encode_get_epoch_result 0 false⟩
      = stakingGas.GET_EPOCH := by
  have hd := ((staking_fixed_gas_charging (fun _ => 0) [0x57, 0x3c, 0x1c, 0xe0]
    100000).2.2.2.1 (by decide)).1 (by decide)
  have hrun : run_staking_precompile (fun _ => 0) STAKING_ADDRESS
      [0x75, 0x79, 0x91, 0xa8] 16200
      = .ok (some ⟨.Return, ⟨16200, 0, 0⟩, encode_get_epoch_result 0 false⟩) := by
    rfl
  have he := ((staking_fixed_gas_charging (fun _ => 0) [0x75, 0x79, 0x91, 0xa8]
    16200).1 (by decide)).2 _ hrun rfl
  exact ⟨by decide, by decide, hd.1, hd.2, hrun, he⟩

/-! ## C8: inputs shorter than 4 bytes -/

/-- **C8 (counterexample).** A call to the staking address with an empty
input does not produce the `PrecompileError` interpreter outcome at all: the
provider returns a top-level string error (`Err(String)` in the source,
propagated by `?` out of `run_staking_precompile`), so the result is not
`Ok` of any interpreter result. -/
theorem short_staking_input_not_precompile_error_outcome :
    run_staking_precompile (fun _ => 0) STAKING_ADDRESS [] 100000
      = .error "Invalid input: missing selector"
    ∧ (run_staking_precompile (fun _ => 0) STAKING_ADDRESS [] 100000).isOk = false :=
  ⟨rfl, rfl⟩

/-- **C8 (amended).** For every call to the staking precompile address whose
input has fewer than 4 bytes, `run_staking_precompile` fails with the
provider-level string error `"Invalid input: missing selector"` (a fatal
EVM-level error), which is a different error class from the
`PrecompileError` interpreter outcome produced for an unknown selector. -/
theorem short_staking_input_provider_error (store : Nat → Nat) (input : List Nat)
    (g : Nat) (h : input.length < 4) :
    run_staking_precompile store STAKING_ADDRESS input g
      = .error "Invalid input: missing selector" := by
  simp [run_staking_precompile, decode_selector, h]

/-- Witness for the amended C8 at an empty input, contrasted with the
unknown-selector class: a 4-byte unknown selector yields the
`PrecompileError` interpreter outcome with empty output. -/
theorem short_staking_input_provider_error_witness :
    ([] : List Nat).length < 4
    ∧ run_staking_precompile (fun _ => 0) STAKING_ADDRESS [] 77
      = .error "Invalid input: missing selector"
    ∧ run_staking_precompile (fun _ => 0) STAKING_ADDRESS [0xde, 0xad, 0xbe, 0xef] 77
      = .ok (some ⟨.PrecompileError, Gas.new 77,  []⟩) :=
  ⟨by decide, short_staking_input_provider_error (fun _ => 0) [] 77 (by decide),
    by rfl⟩

/-! ## C10: getEpoch / getProposerValId read only the low 64 bits -/

/-- **C10.** For every journal state, `getEpoch` returns the low 64 bits of
the `EPOCH` storage word and `getProposerValId` the low 64 bits of the
`PROPOSER_VAL_ID` storage word — values above `2^64 - 1` are silently
truncated, never an error — while `getEpoch`'s `in_delay_period` flag is
computed from the full 256-bit `IN_BOUNDARY` word compared against zero. -/
theorem staking_reads_low_64_bits (store : Nat → Nat) (input1 input2 : List Nat)
    (g1 g2 : Nat) (h1 : decode_selector input1 = some selectors.GET_EPOCH)
    (h2 : decode_selector input2 = some selectors.GET_PROPOSER_VAL_ID)
    (hg1 : stakingGas.GET_EPOCH ≤ g1) (hg2 : stakingGas.GET_PROPOSER_VAL_ID ≤ g2) :
    run_staking_precompile store STAKING_ADDRESS input1 g1
      = .ok (some ⟨.Return, ⟨g1, g1 - stakingGas.GET_EPOCH, 0⟩,
          encode_get_epoch_result (store global_slots.EPOCH % 2 ^ 64)
            (store global_slots.IN_BOUNDARY != 0)⟩)
    ∧ run_staking_precompile store STAKING_ADDRESS input2 g2
      = .ok (some ⟨.Return, ⟨g2, g2 - stakingGas.GET_PROPOSER_VAL_ID, 0⟩,
          encode_get_proposer_val_id_result
            (store global_slots.PROPOSER_VAL_ID % 2 ^ 64)⟩) := by
  constructor
  · rw [run_staking_on_selector store input1 g1 _ h1, stakingDispatch_get_epoch]
    unfold handle_get_epoch
    rw [if_neg (not_lt.2 hg1)]
    simp [stakingFinish, Gas.record_cost, Gas.new, hg1, read_epoch_info,
      read_storage_u64, read_storage_u256]
  · rw [run_staking_on_selector store input2 g2 _ h2,
      stakingDispatch_get_proposer_val_id]
    unfold handle_get_proposer_val_id
    rw [if_neg (not_lt.2 hg2)]
    simp [stakingFinish, Gas.record_cost, Gas.new, hg2, read_storage_u64,
      read_storage_u256]

/-- Witness for C10 at a store whose `EPOCH` word is `2^100 + 5` (truncated
to 5), `IN_BOUNDARY` word is `2^200` (flag true), and `PROPOSER_VAL_ID`
word is `2^64 + 7` (truncated to 7). -/
theorem staking_reads_low_64_bits_witness :
    decode_selector [0x75, 0x79, 0x91, 0xa8] = some selectors.GET_EPOCH
    ∧ decode_selector [0xfb, 0xac, 0xb0, 0xbe] = some selectors.GET_PROPOSER_VAL_ID
    ∧ stakingGas.GET_EPOCH ≤ 16200
    ∧ stakingGas.GET_PROPOSER_VAL_ID ≤ 100
    ∧ run_staking_precompile
        (fun k => if k = 1 then 2 ^ 100 + 5 else if k = 2 then 2 ^ 200
          else if k = 4 then 2 ^ 64 + 7 else 0)
        STAKING_ADDRESS [0x75, 0x79, 0x91, 0xa8] 16200
      = .ok (some ⟨.Return, ⟨16200, 16200 - stakingGas.GET_EPOCH, 0⟩,
          encode_get_epoch_result
            ((fun k => if k = 1 then 2 ^ 100 + 5 else if k = 2 then 2 ^ 200
              else if k = 4 then 2 ^ 64 + 7 else 0) global_slots.EPOCH % 2 ^ 64)
            ((fun k => if k = 1 then 2 ^ 100 + 5 else if k = 2 then 2 ^ 200
              else if k = 4 then 2 ^ 64 + 7 else 0) global_slots.IN_BOUNDARY != 0)⟩)
    ∧ run_staking_precompile
        (fun k => if k = 1 then 2 ^ 100 + 5 else if k = 2 then 2 ^ 200
          else if k = 4 then 2 ^ 64 + 7 else 0)
        STAKING_ADDRESS [0xfb, 0xac, 0xb0, 0xbe] 100
      = .ok (some ⟨.Return, ⟨100, 100 - stakingGas.GET_PROPOSER_VAL_ID, 0⟩,
          encode_get_proposer_val_id_result
            ((fun k => if k = 1 then 2 ^ 100 + 5 else if k = 2 then 2 ^ 200
              else if k = 4 then 2 ^ 64 + 7 else 0) global_slots.PROPOSER_VAL_ID
              % 2 ^ 64)⟩)
    ∧ (2 ^ 100 + 5) % 2 ^ 64 = 5 ∧ (2 ^ 64 + 7) % 2 ^ 64 = 7 := by
  have h := staking_reads_low_64_bits
    (fun k => if k = 1 then 2 ^ 100 + 5 else if k = 2 then 2 ^ 200
      else if k = 4 then 2 ^ 64 + 7 else 0)
    [0x75, 0x79, 0x91, 0xa8] [0xfb, 0xac, 0xb0, 0xbe] 16200 100
    (by decide) (by decide) (by decide) (by decide)
  exact ⟨by decide, by decide, by decide, by decide, h.1, h.2, by decide, by decide⟩

/-! ## C6: repriced precompile gas -/

/-- **C6.** For every successful call to a repriced precompile, the gas
consumed equals the chain table value: ecRecover consumes 6000, bn254 add
300, bn254 mul 30000, bn254 pairing `225000 + 170000` per input pair
(`input.length / 192` pairs), blake2f `2 * rounds` (rounds being the
big-endian u32 in the first 4 input bytes), and KZG point evaluation
200000.  The external cryptographic primitives are abstracted as
parameters; the gas does not depend on them. -/
theorem repriced_precompile_gas
    (ec : List Nat → Nat → List Nat → Option (List Nat))
    (opa opm opp : List Nat → Except PrecompileErr (List Nat))
    (compress : Nat → List Nat → List Nat → List Nat → Bool → List Nat)
    (kzgHash : List Nat → List Nat)
    (verify : List Nat → List Nat → List Nat → List Nat → Except PrecompileErr Unit)
    (return_value : List Nat) (input : List Nat) (gas_limit : Nat)
    (out : PrecompileOutput) :
    (monad_ecrecover_run ec input gas_limit = .ok out
      → out.gas_used = MONAD_ECRECOVER_GAS)
    ∧ (monad_ec_add_run opa input gas_limit = .ok out
      → out.gas_used = MONAD_EC_ADD_GAS)
    ∧ (monad_ec_mul_run opm input gas_limit = .ok out
      → out.gas_used = MONAD_EC_MUL_GAS)
    ∧ (monad_ec_pairing_run opp input gas_limit = .ok out
      → out.gas_used = MONAD_EC_PAIRING_BASE_GAS
          + MONAD_EC_PAIRING_PER_POINT_GAS * (input.length / 192))
    ∧ (monad_blake2f_run compress input gas_limit = .ok out
      → out.gas_used = fromBe (input.take 4) * MONAD_BLAKE2F_ROUND_GAS)
    ∧ (monad_point_evaluation_run kzgHash verify return_value input gas_limit
        = .ok out
      → out.gas_used = MONAD_POINT_EVALUATION_GAS) := by
  refine ⟨fun h => ?_, fun h => ?_, fun h => ?_, fun h => ?_, fun h => ?_,
    fun h => ?_⟩
  all_goals
    simp only [monad_ecrecover_run, monad_ec_add_run, monad_ec_mul_run,
      monad_ec_pairing_run, monad_blake2f_run, monad_point_evaluation_run,
      bn254_run_const, bn254_run_pair] at h
  all_goals repeat' split at h
  all_goals
    first
      | exact (Except.noConfusion h)
      | (simp only [Except.ok.injEq] at h; subst h; rfl)

set_option maxRecDepth 4000 in
/-- Witness for C6: a successful instance of each of the six repriced run
functions with trivial external primitives. -/
theorem repriced_precompile_gas_witness :
    monad_ecrecover_run (fun _ _ _ => none) [] 6000 = .ok ⟨6000, []⟩
    ∧ (⟨6000, []⟩ : PrecompileOutput).gas_used = MONAD_ECRECOVER_GAS
    ∧ monad_ec_add_run (fun _ => .ok []) [] 300 = .ok ⟨300, []⟩
    ∧ (⟨300, []⟩ : PrecompileOutput).gas_used = MONAD_EC_ADD_GAS
    ∧ monad_ec_mul_run (fun _ => .ok []) [] 30000 = .ok ⟨30000, []⟩
    ∧ (⟨30000, []⟩ : PrecompileOutput).gas_used = MONAD_EC_MUL_GAS
    ∧ monad_ec_pairing_run (fun _ => .ok []) (List.replicate 192 0) 500000
      = .ok ⟨395000, []⟩
    ∧ (⟨395000, []⟩ : PrecompileOutput).gas_used
      = MONAD_EC_PAIRING_BASE_GAS
        + MONAD_EC_PAIRING_PER_POINT_GAS
          * ((List.replicate 192 0 : List Nat).length / 192)
    ∧ monad_blake2f_run (fun _ _ _ _ _ => []) (List.replicate 213 0) 100
      = .ok ⟨0, []⟩
    ∧ (⟨0, []⟩ : PrecompileOutput).gas_used
      = fromBe ((List.replicate 213 0 : List Nat).take 4) * MONAD_BLAKE2F_ROUND_GAS
    ∧ monad_point_evaluation_run (fun _ => List.replicate 32 0)
        (fun _ _ _ _ => .ok ()) [] (List.replicate 192 0) 200000 = .ok ⟨200000, []⟩
    ∧ (⟨200000, []⟩ : PrecompileOutput).gas_used = MONAD_POINT_EVALUATION_GAS := by
  have h1 : monad_ecrecover_run (fun _ _ _ => none) [] 6000 = .ok ⟨6000, []⟩ := by rfl
  have h2 : monad_ec_add_run (fun _ => .ok []) [] 300 = .ok ⟨300, []⟩ := by rfl
  have h3 : monad_ec_mul_run (fun _ => .ok []) [] 30000 = .ok ⟨30000, []⟩ := by rfl
  have h4 : monad_ec_pairing_run (fun _ => .ok []) (List.replicate 192 0) 500000
      = .ok ⟨395000, []⟩ := by rfl
  have h5 : monad_blake2f_run (fun _ _ _ _ _ => []) (List.replicate 213 0) 100
      = .ok ⟨0, []⟩ := by rfl
  have h6 : monad_point_evaluation_run (fun _ => List.replicate 32 0)
      (fun _ _ _ _ => .ok ()) [] (List.replicate 192 0) 200000
      = .ok ⟨200000, []⟩ := by rfl
  refine ⟨h1, ?_, h2, ?_, h3, ?_, h4, ?_, h5, ?_, h6, ?_⟩
  · exact (repriced_precompile_gas (fun _ _ _ => none) (fun _ => .ok [])
      (fun _ => .ok []) (fun _ => .ok []) (fun _ _ _ _ _ => [])
      (fun _ => List.replicate 32 0) (fun _ _ _ _ => .ok ()) [] [] 6000
      ⟨6000, []⟩).1 h1
  · exact (repriced_precompile_gas (fun _ _ _ => none) (fun _ => .ok [])
      (fun _ => .ok []) (fun _ => .ok []) (fun _ _ _ _ _ => [])
      (fun _ => List.replicate 32 0) (fun _ _ _ _ => .ok ()) [] [] 300
      ⟨300, []⟩).2.1 h2
  · exact (repriced_precompile_gas (fun _ _ _ => none) (fun _ => .ok [])
      (fun _ => .ok []) (fun _ => .ok []) (fun _ _ _ _ _ => [])
      (fun _ => List.replicate 32 0) (fun _ _ _ _ => .ok ()) [] [] 30000
      ⟨30000, []⟩).2.2.1 h3
  · exact (repriced_precompile_gas (fun _ _ _ => none) (fun _ => .ok [])
      (fun _ => .ok []) (fun _ => .ok []) (fun _ _ _ _ _ => [])
      (fun _ => List.replicate 32 0) (fun _ _ _ _ => .ok ())
      [] (List.replicate 192 0) 500000 ⟨395000, []⟩).2.2.2.1 h4
  · exact (repriced_precompile_gas (fun _ _ _ => none) (fun _ => .ok [])
      (fun _ => .ok []) (fun _ => .ok []) (fun _ _ _ _ _ => [])
      (fun _ => List.replicate 32 0) (fun _ _ _ _ => .ok ())
      [] (List.replicate 213 0) 100 ⟨0, []⟩).2.2.2.2.1 h5
  · exact (repriced_precompile_gas (fun _ _ _ => none) (fun _ => .ok [])
      (fun _ => .ok []) (fun _ => .ok []) (fun _ _ _ _ _ => [])
      (fun _ => List.replicate 32 0) (fun _ _ _ _ => .ok ())
      [] (List.replicate 192 0) 200000 ⟨200000, []⟩).2.2.2.2.2 h6

/-! ## C9: joint injectivity of the staking storage keys -/

theorem radix_bound {a s A M : Nat} (ha : a < A) (hs : s < M) :
    a * M + s < A * M := by
  calc a * M + s < a * M + M := by omega
    _ = (a + 1) * M := by ring
    _ ≤ A * M := Nat.mul_le_mul_right M ha

theorem digit_split {n1 n2 p1 p2 C : Nat} (hp1 : p1 < C) (hp2 : p2 < C)
    (h : n1 * C + p1 = n2 * C + p2) : n1 = n2 ∧ p1 = p2 := by
  have hC : 0 < C := by omega
  have h' : p1 + C * n1 = p2 + C * n2 := by
    calc p1 + C * n1 = n1 * C + p1 := by ring
      _ = n2 * C + p2 := h
      _ = p2 + C * n2 := by ring
  have e1 : n1 = n2 := by
    have hd := congrArg (fun x => x / C) h'
    simpa [Nat.add_mul_div_left _ _ hC, Nat.div_eq_of_lt hp1,
      Nat.div_eq_of_lt hp2] using hd
  subst e1
  exact ⟨rfl, by omega⟩

theorem fromBe_inj : ∀ l1 l2 : List Nat, l1.length = l2.length →
    (∀ b ∈ l1, b < 256) → (∀ b ∈ l2, b < 256) → fromBe l1 = fromBe l2 →
    l1 = l2 := by
  intro l1
  induction l1 with
  | nil =>
    intro l2 hlen _ _ _
    cases l2 with
    | nil => rfl
    | cons c u => simp at hlen
  | cons b t ih =>
    intro l2 hlen hb1 hb2 h
    cases l2 with
    | nil => simp at hlen
    | cons c u =>
      simp only [List.length_cons] at hlen
      have hlen' : t.length = u.length := by omega
      simp only [fromBe, hlen'] at h
      have hft : fromBe t < 256 ^ u.length := by
        rw [← hlen']
        exact fromBe_lt t fun x hx => hb1 x (List.mem_cons_of_mem _ hx)
      have hfu : fromBe u < 256 ^ u.length :=
        fromBe_lt u fun x hx => hb2 x (List.mem_cons_of_mem _ hx)
      obtain ⟨hbc, htu⟩ := digit_split hft hfu h
      rw [hbc, ih u hlen' (fun x hx => hb1 x (List.mem_cons_of_mem _ hx))
        (fun x hx => hb2 x (List.mem_cons_of_mem _ hx)) htu]

theorem validator_key_closed (v s : Nat) (hv : v < 2 ^ 64) :
    validator_key v s = 9 * 256 ^ 31 + 256 ^ 22 * (v * 256 + s) := by
  have hv8 : v < 256 ^ 8 := hv.trans_eq (by norm_num)
  unfold validator_key stakingNamespace.VAL_EXECUTION
  rw [fromBe_append, fromBe_append, fromBe_append, fromBe_natToBe,
    Nat.mod_eq_of_lt hv8, fromBe_replicate_zero]
  simp only [fromBe, List.length_replicate, List.length_singleton,
    List.length_append, List.length_nil, natToBe_length]
  ring

theorem consensus_view_key_closed (v s : Nat) (hv : v < 2 ^ 64) :
    consensus_view_key v s = 4 * 256 ^ 31 + 256 ^ 22 * (v * 256 + s) := by
  have hv8 : v < 256 ^ 8 := hv.trans_eq (by norm_num)
  unfold consensus_view_key stakingNamespace.CONSENSUS_STAKE
  rw [fromBe_append, fromBe_append, fromBe_append, fromBe_natToBe,
    Nat.mod_eq_of_lt hv8, fromBe_replicate_zero]
  simp only [fromBe, List.length_replicate, List.length_singleton,
    List.length_append, List.length_nil, natToBe_length]
  ring

theorem snapshot_view_key_closed (v s : Nat) (hv : v < 2 ^ 64) :
    snapshot_view_key v s = 5 * 256 ^ 31 + 256 ^ 22 * (v * 256 + s) := by
  have hv8 : v < 256 ^ 8 := hv.trans_eq (by norm_num)
  unfold snapshot_view_key stakingNamespace.SNAPSHOT_STAKE
  rw [fromBe_append, fromBe_append, fromBe_append, fromBe_natToBe,
    Nat.mod_eq_of_lt hv8, fromBe_replicate_zero]
  simp only [fromBe, List.length_replicate, List.length_singleton,
    List.length_append, List.length_nil, natToBe_length]
  ring

theorem delegator_key_closed (v : Nat) (a : List Nat) (s : Nat) (hv : v < 2 ^ 64)
    (ha : a.length = 20) :
    delegator_key v a s
      = 11 * 256 ^ 31 + 256 ^ 2 * (v * 256 ^ 21 + (fromBe a * 256 + s)) := by
  have hv8 : v < 256 ^ 8 := hv.trans_eq (by norm_num)
  unfold delegator_key stakingNamespace.DELEGATOR
  rw [fromBe_append, fromBe_append, fromBe_append, fromBe_append, fromBe_natToBe,
    Nat.mod_eq_of_lt hv8, fromBe_replicate_zero]
  simp only [fromBe, List.length_replicate, List.length_singleton,
    List.length_append, List.length_nil, natToBe_length, ha]
  ring

theorem withdrawal_key_closed (v : Nat) (a : List Nat) (w s : Nat)
    (hv : v < 2 ^ 64) (ha : a.length = 20) :
    withdrawal_key v a w s
      = 12 * 256 ^ 31
        + 256 * (v * 256 ^ 22 + (fromBe a * 256 ^ 2 + (w * 256 + s))) := by
  have hv8 : v < 256 ^ 8 := hv.trans_eq (by norm_num)
  unfold withdrawal_key stakingNamespace.WITHDRAWAL_REQUEST
  rw [fromBe_append, fromBe_append, fromBe_append, fromBe_append, fromBe_natToBe,
    Nat.mod_eq_of_lt hv8, fromBe_replicate_zero]
  simp only [fromBe, List.length_replicate, List.length_singleton,
    List.length_append, List.length_cons, List.length_nil, natToBe_length, ha]
  ring

theorem view_payload_lt (v s : Nat) (hv : v < 2 ^ 64) (hs : s < 256) :
    256 ^ 22 * (v * 256 + s) < 256 ^ 31 := by
  have h1 : v * 256 + s < 2 ^ 64 * 256 := radix_bound hv hs
  calc 256 ^ 22 * (v * 256 + s) < 256 ^ 22 * (2 ^ 64 * 256) :=
      mul_lt_mul_of_pos_left h1 (by positivity)
    _ = 256 ^ 31 := by norm_num

theorem delegator_payload_lt (v A s : Nat) (hv : v < 2 ^ 64) (hA : A < 256 ^ 20)
    (hs : s < 256) :
    256 ^ 2 * (v * 256 ^ 21 + (A * 256 + s)) < 256 ^ 31 := by
  have h1 : A * 256 + s < 256 ^ 21 :=
    calc A * 256 + s < 256 ^ 20 * 256 := radix_bound hA hs
      _ = 256 ^ 21 := by norm_num
  have h2 : v * 256 ^ 21 + (A * 256 + s) < 2 ^ 64 * 256 ^ 21 := radix_bound hv h1
  calc 256 ^ 2 * (v * 256 ^ 21 + (A * 256 + s)) < 256 ^ 2 * (2 ^ 64 * 256 ^ 21) :=
      mul_lt_mul_of_pos_left h2 (by positivity)
    _ = 256 ^ 31 := by norm_num

theorem withdrawal_payload_lt (v A w s : Nat) (hv : v < 2 ^ 64)
    (hA : A < 256 ^ 20) (hw : w < 256) (hs : s < 256) :
    256 * (v * 256 ^ 22 + (A * 256 ^ 2 + (w * 256 + s))) < 256 ^ 31 := by
  have h1 : w * 256 + s < 256 ^ 2 :=
    calc w * 256 + s < 256 * 256 := radix_bound hw hs
      _ = 256 ^ 2 := by norm_num
  have h2 : A * 256 ^ 2 + (w * 256 + s) < 256 ^ 22 :=
    calc A * 256 ^ 2 + (w * 256 + s) < 256 ^ 20 * 256 ^ 2 := radix_bound hA h1
      _ = 256 ^ 22 := by norm_num
  have h3 : v * 256 ^ 22 + (A * 256 ^ 2 + (w * 256 + s)) < 2 ^ 64 * 256 ^ 22 :=
    radix_bound hv h2
  calc 256 * (v * 256 ^ 22 + (A * 256 ^ 2 + (w * 256 + s)))
      < 256 * (2 ^ 64 * 256 ^ 22) := mul_lt_mul_of_pos_left h3 (by norm_num)
    _ = 256 ^ 31 := by norm_num

/-- A staking-contract entity identity: the kind (validator execution view,
consensus view, snapshot view, delegator, withdrawal request) together with
the identifiers that select its storage slot. -/
inductive StakingKeyId where
  | validatorK (val_id slot : Nat)
  | consensusK (val_id slot : Nat)
  | snapshotK (val_id slot : Nat)
  | delegatorK (val_id : Nat) (delegator : List Nat) (slot : Nat)
  | withdrawalK (val_id : Nat) (delegator : List Nat) (withdrawal_id slot : Nat)
deriving DecidableEq, Repr

/-- The storage key generated for an entity, by the key-construction
function of its kind. -/
def StakingKeyId.key : StakingKeyId → Nat
  | .validatorK v s => validator_key v s
  | .consensusK v s => consensus_view_key v s
  | .snapshotK v s => snapshot_view_key v s
  | .delegatorK v a s => delegator_key v a s
  | .withdrawalK v a w s => withdrawal_key v a w s

/-- Well-formedness: `val_id` is a u64, slots and withdrawal ids are u8, and
delegator addresses are 20 bytes. -/
def StakingKeyId.wf : StakingKeyId → Prop
  | .validatorK v s => v < 2 ^ 64 ∧ s < 256
  | .consensusK v s => v < 2 ^ 64 ∧ s < 256
  | .snapshotK v s => v < 2 ^ 64 ∧ s < 256
  | .delegatorK v a s =>
      v < 2 ^ 64 ∧ s < 256 ∧ a.length = 20 ∧ ∀ b ∈ a, b < 256
  | .withdrawalK v a w s =>
      v < 2 ^ 64 ∧ w < 256 ∧ s < 256 ∧ a.length = 20 ∧ ∀ b ∈ a, b < 256

/-- The namespace byte of an entity's key. -/
def StakingKeyId.ns : StakingKeyId → Nat
  | .validatorK .. => 9
  | .consensusK .. => 4
  | .snapshotK .. => 5
  | .delegatorK .. => 11
  | .withdrawalK .. => 12

/-- The low 31 bytes of an entity's key, as a number. -/
def StakingKeyId.payload : StakingKeyId → Nat
  | .validatorK v s => 256 ^ 22 * (v * 256 + s)
  | .consensusK v s => 256 ^ 22 * (v * 256 + s)
  | .snapshotK v s => 256 ^ 22 * (v * 256 + s)
  | .delegatorK v a s => 256 ^ 2 * (v * 256 ^ 21 + (fromBe a * 256 + s))
  | .withdrawalK v a w s =>
      256 * (v * 256 ^ 22 + (fromBe a * 256 ^ 2 + (w * 256 + s)))

theorem key_eq_ns_payload (k : StakingKeyId) (h : k.wf) :
    k.key = k.ns * 256 ^ 31 + k.payload := by
  cases k with
  | validatorK v s => exact validator_key_closed v s h.1
  | consensusK v s => exact consensus_view_key_closed v s h.1
  | snapshotK v s => exact snapshot_view_key_closed v s h.1
  | delegatorK v a s =>
    obtain ⟨hv, _, ha, _⟩ := h
    exact delegator_key_closed v a s hv ha
  | withdrawalK v a w s =>
    obtain ⟨hv, _, _, ha, _⟩ := h
    exact withdrawal_key_closed v a w s hv ha

theorem payload_lt_of_wf (k : StakingKeyId) (h : k.wf) :
    k.payload < 256 ^ 31 := by
  cases k with
  | validatorK v s => exact view_payload_lt v s h.1 h.2
  | consensusK v s => exact view_payload_lt v s h.1 h.2
  | snapshotK v s => exact view_payload_lt v s h.1 h.2
  | delegatorK v a s =>
    obtain ⟨hv, hs, ha, hb⟩ := h
    have hA : fromBe a < 256 ^ 20 := by
      have := fromBe_lt a hb
      rwa [ha] at this
    exact delegator_payload_lt v (fromBe a) s hv hA hs
  | withdrawalK v a w s =>
    obtain ⟨hv, hw, hs, ha, hb⟩ := h
    have hA : fromBe a < 256 ^ 20 := by
      have := fromBe_lt a hb
      rwa [ha] at this
    exact withdrawal_payload_lt v (fromBe a) w s hv hA hw hs

theorem key_eq_parts (k1 k2 : StakingKeyId) (h1 : k1.wf) (h2 : k2.wf)
    (h : k1.key = k2.key) : k1.ns = k2.ns ∧ k1.payload = k2.payload := by
  rw [key_eq_ns_payload k1 h1, key_eq_ns_payload k2 h2] at h
  exact digit_split (payload_lt_of_wf k1 h1) (payload_lt_of_wf k2 h2) h

/-- **C9.** For any two distinct well-formed entity identities — (val_id,
slot) under the validator, consensus-view or snapshot-view namespaces,
(val_id, delegator, slot) under the delegator namespace, (val_id, delegator,
withdrawal_id, slot) under the withdrawal namespace — the generated 32-byte
storage keys differ: the key-construction functions are jointly injective
across kinds and identities. -/
theorem staking_storage_keys_jointly_injective (k1 k2 : StakingKeyId)
    (h1 : k1.wf) (h2 : k2.wf) (h : k1.key = k2.key) : k1 = k2 := by
  obtain ⟨hns, hp⟩ := key_eq_parts k1 k2 h1 h2 h
  cases k1 <;> cases k2 <;> simp only [StakingKeyId.ns] at hns <;>
    simp only [StakingKeyId.payload] at hp
  all_goals try exact absurd hns (by decide)
  · rename_i v1 s1 v2 s2
    obtain ⟨-, hs1⟩ := h1
    obtain ⟨-, hs2⟩ := h2
    have hX := Nat.eq_of_mul_eq_mul_left
      (show (0 : Nat) < 256 ^ 22 by positivity) hp
    simp only [StakingKeyId.validatorK.injEq]
    omega
  · rename_i v1 s1 v2 s2
    obtain ⟨-, hs1⟩ := h1
    obtain ⟨-, hs2⟩ := h2
    have hX := Nat.eq_of_mul_eq_mul_left
      (show (0 : Nat) < 256 ^ 22 by positivity) hp
    simp only [StakingKeyId.consensusK.injEq]
    omega
  · rename_i v1 s1 v2 s2
    obtain ⟨-, hs1⟩ := h1
    obtain ⟨-, hs2⟩ := h2
    have hX := Nat.eq_of_mul_eq_mul_left
      (show (0 : Nat) < 256 ^ 22 by positivity) hp
    simp only [StakingKeyId.snapshotK.injEq]
    omega
  · rename_i v1 a1 s1 v2 a2 s2
    obtain ⟨hv1, hs1, ha1, hb1⟩ := h1
    obtain ⟨hv2, hs2, ha2, hb2⟩ := h2
    have hE := Nat.eq_of_mul_eq_mul_left
      (show (0 : Nat) < 256 ^ 2 by positivity) hp
    have hA1 : fromBe a1 < 256 ^ 20 := by
      have := fromBe_lt a1 hb1
      rwa [ha1] at this
    have hA2 : fromBe a2 < 256 ^ 20 := by
      have := fromBe_lt a2 hb2
      rwa [ha2] at this
    have hr1 : fromBe a1 * 256 + s1 < 256 ^ 21 :=
      calc fromBe a1 * 256 + s1 < 256 ^ 20 * 256 := radix_bound hA1 hs1
        _ = 256 ^ 21 := by norm_num
    have hr2 : fromBe a2 * 256 + s2 < 256 ^ 21 :=
      calc fromBe a2 * 256 + s2 < 256 ^ 20 * 256 := radix_bound hA2 hs2
        _ = 256 ^ 21 := by norm_num
    obtain ⟨hveq, hrs⟩ := digit_split hr1 hr2 hE
    obtain ⟨hAeq, hseq⟩ := digit_split hs1 hs2 hrs
    have haeq : a1 = a2 := fromBe_inj a1 a2 (ha1.trans ha2.symm) hb1 hb2 hAeq
    simp only [StakingKeyId.delegatorK.injEq]
    exact ⟨hveq, haeq, hseq⟩
  · rename_i v1 a1 w1 s1 v2 a2 w2 s2
    obtain ⟨hv1, hw1, hs1, ha1, hb1⟩ := h1
    obtain ⟨hv2, hw2, hs2, ha2, hb2⟩ := h2
    have hE := Nat.eq_of_mul_eq_mul_left
      (show (0 : Nat) < 256 by norm_num) hp
    have hA1 : fromBe a1 < 256 ^ 20 := by
      have := fromBe_lt a1 hb1
      rwa [ha1] at this
    have hA2 : fromBe a2 < 256 ^ 20 := by
      have := fromBe_lt a2 hb2
      rwa [ha2] at this
    have hq1 : w1 * 256 + s1 < 256 ^ 2 :=
      calc w1 * 256 + s1 < 256 * 256 := radix_bound hw1 hs1
        _ = 256 ^ 2 := by norm_num
    have hq2 : w2 * 256 + s2 < 256 ^ 2 :=
      calc w2 * 256 + s2 < 256 * 256 := radix_bound hw2 hs2
        _ = 256 ^ 2 := by norm_num
    have hr1 : fromBe a1 * 256 ^ 2 + (w1 * 256 + s1) < 256 ^ 22 :=
      calc fromBe a1 * 256 ^ 2 + (w1 * 256 + s1)
          < 256 ^ 20 * 256 ^ 2 := radix_bound hA1 hq1
        _ = 256 ^ 22 := by norm_num
    have hr2 : fromBe a2 * 256 ^ 2 + (w2 * 256 + s2) < 256 ^ 22 :=
      calc fromBe a2 * 256 ^ 2 + (w2 * 256 + s2)
          < 256 ^ 20 * 256 ^ 2 := radix_bound hA2 hq2
        _ = 256 ^ 22 := by norm_num
    obtain ⟨hveq, hrr⟩ := digit_split hr1 hr2 hE
    obtain ⟨hAeq, hq⟩ := digit_split hq1 hq2 hrr
    obtain ⟨hweq, hseq⟩ := digit_split hs1 hs2 hq
    have haeq : a1 = a2 := fromBe_inj a1 a2 (ha1.trans ha2.symm) hb1 hb2 hAeq
    simp only [StakingKeyId.withdrawalK.injEq]
    exact ⟨hveq, haeq, hweq, hseq⟩

/-- Witness for C9: two concrete distinct identities (a validator slot and a
consensus-view slot with the same val_id and slot) have distinct keys, by
the injectivity theorem. -/
theorem staking_storage_keys_jointly_injective_witness :
    (StakingKeyId.validatorK 1 0).wf
    ∧ (StakingKeyId.consensusK 1 0).wf
    ∧ (StakingKeyId.validatorK 1 0).key ≠ (StakingKeyId.consensusK 1 0).key := by
  refine ⟨⟨by norm_num, by norm_num⟩, ⟨by norm_num, by norm_num⟩, fun h => ?_⟩
  exact absurd
    (staking_storage_keys_jointly_injective (StakingKeyId.validatorK 1 0)
      (StakingKeyId.consensusK 1 0) ⟨by norm_num, by norm_num⟩
      ⟨by norm_num, by norm_num⟩ h)
    (by decide)
